import Mathlib

/-!
Verification of the const-gen value-serialization library (src/lib.rs).

The library renders runtime values as pairs of strings: a type-name
expression (`const_type`) and a value-literal expression (`const_val`),
and assembles full Rust `const`/`static` declarations from them.  This
file shallowly embeds the trait `CompileConst`, the trait
`CompileConstArray`, the declaration-assembly default methods, and the
renderer implementations for numerics, strings, chars, bools, slices,
fixed-size arrays and tuples, and proves the frozen claims about them.

Rust's `format!` calls are translated to explicit string concatenation,
`.join(",")` to `String.intercalate ","`, `.collect::<Vec<_>>().concat()`
to `String.join`, and `self.chars()` to `String.data` (both iterate
Unicode scalar values).
-/

namespace ConstGen

/-- DeclarationType (src/lib.rs lines 84-88): the kind of declaration to
generate, `const` or `static`. -/
inductive DeclarationType
  | const
  | static
deriving DecidableEq

/-- The Display impl for DeclarationType (src/lib.rs lines 90-97). -/
def DeclarationType.display : DeclarationType → String
  | .const => "const"
  | .static => "static"

/-- The CompileConst trait (src/lib.rs lines 100-107): `const_type` is an
associated function of the type alone (it takes no self parameter in the
source, so it cannot depend on a value), `const_val` renders one value.
An implementation of the trait for a Rust type is a term of this
structure. -/
structure CompileConst (α : Type) where
  const_type : String
  const_val : α → String

/-- The CompileConstArray trait (src/lib.rs lines 173-177): both
operations take the value, since the array type-name embeds the runtime
length of the specific instance. -/
structure CompileConstArray (α : Type) where
  const_array_type : α → String
  const_array_val : α → String

/-- The provided method CompileConst::declaration (src/lib.rs lines
129-147): the expansion of
format!("{}{}{}{}{} {}: {} = {};", ...) with the five leading pieces
attrs-or-empty, space-if-attrs, vis, space-if-vis, declaration type. -/
def CompileConst.declaration (c : CompileConst α) (self : α) (attrs vis : String)
    (declaration_type : DeclarationType) (name : String) : String :=
  (if attrs.isEmpty then "" else attrs)
    ++ (if attrs.isEmpty then "" else " ")
    ++ vis
    ++ (if vis.isEmpty then "" else " ")
    ++ declaration_type.display ++ " " ++ name ++ ": "
    ++ c.const_type ++ " = " ++ c.const_val self ++ ";"

/-- CompileConst::const_declaration (src/lib.rs lines 151-153). -/
def CompileConst.const_declaration (c : CompileConst α) (self : α)
    (attrs vis name : String) : String :=
  c.declaration self attrs vis DeclarationType.const name

/-- CompileConst::static_declaration (src/lib.rs lines 157-159). -/
def CompileConst.static_declaration (c : CompileConst α) (self : α)
    (attrs vis name : String) : String :=
  c.declaration self attrs vis DeclarationType.static name

/-- The type-name the protocol uses when declaring a particular value.
Since `const_type` has no self parameter in the source, this ignores the
value; it is named so that value-independence can be stated. -/
def typeNameFor (c : CompileConst α) (_x : α) : String :=
  c.const_type

/-- Rust u8 values. Rust's Display for unsigned integers prints the
decimal digits, embedded as `toString` of the underlying Nat. -/
structure u8 where
  val : Nat
deriving DecidableEq

/-- Rust u16 values. -/
structure u16 where
  val : Nat

/-- Rust u32 values. -/
structure u32 where
  val : Nat

/-- Rust u64 values. -/
structure u64 where
  val : Nat

/-- Rust u128 values. -/
structure u128 where
  val : Nat

/-- Rust usize values. -/
structure usize where
  val : Nat

/-- Rust i8 values. Rust's Display for signed integers prints an optional
minus sign and the decimal digits, embedded as `toString` of the Int. -/
structure i8 where
  val : Int

/-- Rust i16 values. -/
structure i16 where
  val : Int

/-- Rust i32 values. -/
structure i32 where
  val : Int

/-- Rust i64 values. -/
structure i64 where
  val : Int

/-- Rust i128 values. -/
structure i128 where
  val : Int

/-- Rust isize values. -/
structure isize where
  val : Int

/-- Rust f32 values, represented by their Display output: the only
operation the numerics! renderer performs on the value is Display, whose
float formatting is kept abstract as the stored string. -/
structure f32 where
  display : String

/-- Rust f64 values, represented by their Display output. -/
structure f64 where
  display : String

/-- The numerics! implementation for u8 (src/lib.rs lines 209-227):
const_type is stringify!(u8), const_val is format!("{}{}", self, "u8"). -/
def u8.impl : CompileConst u8 :=
  { const_type := "u8", const_val := fun self => toString self.val ++ "u8" }

/-- The numerics! implementation for u16. -/
def u16.impl : CompileConst u16 :=
  { const_type := "u16", const_val := fun self => toString self.val ++ "u16" }

/-- The numerics! implementation for u32. -/
def u32.impl : CompileConst u32 :=
  { const_type := "u32", const_val := fun self => toString self.val ++ "u32" }

/-- The numerics! implementation for u64. -/
def u64.impl : CompileConst u64 :=
  { const_type := "u64", const_val := fun self => toString self.val ++ "u64" }

/-- The numerics! implementation for u128. -/
def u128.impl : CompileConst u128 :=
  { const_type := "u128", const_val := fun self => toString self.val ++ "u128" }

/-- The numerics! implementation for usize. -/
def usize.impl : CompileConst usize :=
  { const_type := "usize", const_val := fun self => toString self.val ++ "usize" }

/-- The numerics! implementation for i8. -/
def i8.impl : CompileConst i8 :=
  { const_type := "i8", const_val := fun self => toString self.val ++ "i8" }

/-- The numerics! implementation for i16. -/
def i16.impl : CompileConst i16 :=
  { const_type := "i16", const_val := fun self => toString self.val ++ "i16" }

/-- The numerics! implementation for i32. -/
def i32.impl : CompileConst i32 :=
  { const_type := "i32", const_val := fun self => toString self.val ++ "i32" }

/-- The numerics! implementation for i64. -/
def i64.impl : CompileConst i64 :=
  { const_type := "i64", const_val := fun self => toString self.val ++ "i64" }

/-- The numerics! implementation for i128. -/
def i128.impl : CompileConst i128 :=
  { const_type := "i128", const_val := fun self => toString self.val ++ "i128" }

/-- The numerics! implementation for isize. -/
def isize.impl : CompileConst isize :=
  { const_type := "isize", const_val := fun self => toString self.val ++ "isize" }

/-- The numerics! implementation for f32; Display of the float is the
stored string. -/
def f32.impl : CompileConst f32 :=
  { const_type := "f32", const_val := fun self => self.display ++ "f32" }

/-- The numerics! implementation for f64. -/
def f64.impl : CompileConst f64 :=
  { const_type := "f64", const_val := fun self => self.display ++ "f64" }

/-- Rust owned String values, carrying their character content. -/
structure RustString where
  s : String

/-- Rust &str values. -/
structure RustStrRef where
  s : String

/-- Rust unsized str values. -/
structure RustStr where
  s : String

/-- The strings! CompileConst implementation for String (src/lib.rs lines
234-245): const_type is the fixed "&'static str", const_val is
format!("\"{}\"", self), the content verbatim between double quotes. -/
def RustString.impl : CompileConst RustString :=
  { const_type := "&'static str"
  , const_val := fun self => "\"" ++ self.s ++ "\"" }

/-- The strings! CompileConst implementation stamped for &str: textually
identical to the String one. -/
def RustStrRef.impl : CompileConst RustStrRef :=
  { const_type := "&'static str"
  , const_val := fun self => "\"" ++ self.s ++ "\"" }

/-- The strings! CompileConst implementation stamped for str. -/
def RustStr.impl : CompileConst RustStr :=
  { const_type := "&'static str"
  , const_val := fun self => "\"" ++ self.s ++ "\"" }

/-- The strings! CompileConstArray implementation for String (src/lib.rs
lines 246-257): const_array_type is format!("[char; {}]",
self.chars().count()), const_array_val concatenates format!("'{}',", c)
over the characters, each wrapped in single quotes and followed by a
comma (the last one included), inside square brackets. -/
def RustString.arrayImpl : CompileConstArray RustString :=
  { const_array_type := fun self => "[char; " ++ toString self.s.length ++ "]"
  , const_array_val := fun self =>
      "[" ++ String.join (self.s.data.map (fun c => "'" ++ String.singleton c ++ "',")) ++ "]" }

/-- The strings! CompileConstArray implementation stamped for &str. -/
def RustStrRef.arrayImpl : CompileConstArray RustStrRef :=
  { const_array_type := fun self => "[char; " ++ toString self.s.length ++ "]"
  , const_array_val := fun self =>
      "[" ++ String.join (self.s.data.map (fun c => "'" ++ String.singleton c ++ "',")) ++ "]" }

/-- The strings! CompileConstArray implementation stamped for str. -/
def RustStr.arrayImpl : CompileConstArray RustStr :=
  { const_array_type := fun self => "[char; " ++ toString self.s.length ++ "]"
  , const_array_val := fun self =>
      "[" ++ String.join (self.s.data.map (fun c => "'" ++ String.singleton c ++ "',")) ++ "]" }

/-- Rust char values. -/
structure RustChar where
  c : Char

/-- The CompileConst implementation for char (src/lib.rs lines 343-351):
const_val is format!("'{}'", *self), the character verbatim between
single quotes. -/
def RustChar.impl : CompileConst RustChar :=
  { const_type := "char"
  , const_val := fun self => "'" ++ String.singleton self.c ++ "'" }

/-- The CompileConst implementation for bool (src/lib.rs lines 353-361). -/
def boolImpl : CompileConst Bool :=
  { const_type := "bool"
  , const_val := fun self => if self then "true" else "false" }

/-- The slices! CompileConst implementation (src/lib.rs lines 268-283),
stamped for both Vec<T> and &[T]; both are embedded as List α.
const_type is format!("&'static [{}]", T::const_type()); const_val maps
const_val over the elements and joins with "," inside "&[...]". -/
def slicesImpl (c : CompileConst α) : CompileConst (List α) :=
  { const_type := "&'static [" ++ c.const_type ++ "]"
  , const_val := fun self =>
      "&[" ++ String.intercalate "," (self.map c.const_val) ++ "]" }

/-- The slices! CompileConstArray implementation (src/lib.rs lines
284-299), stamped for both Vec<T> and &[T]: const_array_type is
format!("[{}; {}]", T::const_type(), self.iter().count()), embedding the
runtime element count of this instance; const_array_val is the same
comma-joined element list as const_val, without the leading `&`. -/
def slicesArrayImpl (c : CompileConst α) : CompileConstArray (List α) :=
  { const_array_type := fun self =>
      "[" ++ c.const_type ++ "; " ++ toString self.length ++ "]"
  , const_array_val := fun self =>
      "[" ++ String.intercalate "," (self.map c.const_val) ++ "]" }

/-- A Rust fixed-size array [T; n]: a list of elements with its length
pinned by the type. -/
structure RustArray (α : Type) (n : Nat) where
  data : List α
  len_eq : data.length = n

/-- The arrays! implementation for [T; n] (src/lib.rs lines 502-523):
const_type is format!("[{}; {}]", T::const_type(), n) with n the literal
the macro was instantiated at, const_val joins the element renderings
with "," inside square brackets. -/
def arrayImpl (c : CompileConst α) (n : Nat) : CompileConst (RustArray α n) :=
  { const_type := "[" ++ c.const_type ++ "; " ++ toString n ++ "]"
  , const_val := fun self =>
      "[" ++ String.intercalate "," (self.data.map c.const_val) ++ "]" }

/-- The array lengths the arrays! macro is instantiated at (src/lib.rs
lines 524-538): the source lists every literal from 0 through 256. -/
def arrayLengths : List Nat :=
  List.range 257

/-- The tuple arities the tuples! macro is instantiated at (src/lib.rs
lines 573-588): the nullary invocation and one per arity from 2 through
16. No invocation covers arity 1. -/
def tupleArities : List Nat :=
  [0, 2, 3, 4, 5, 6, 7, 8, 9, 10, 11, 12, 13, 14, 15, 16]

/-- The format string "()" of tuples! at arity 0 (src/lib.rs line 573),
used by both const_type and const_val of the unit-tuple implementation. -/
def tuple0_fmt : String :=
  "()"

/-- The format string "({},{})" of tuples! at arity 2 (line 574), applied
to the positional renderings of the components. -/
def tuple2_fmt (a b : String) : String :=
  "(" ++ a ++ "," ++ b ++ ")"

/-- The format string of tuples! at arity 3 (line 575). -/
def tuple3_fmt (a b c : String) : String :=
  "(" ++ a ++ "," ++ b ++ "," ++ c ++ ")"

/-- The format string of tuples! at arity 4 (line 576). -/
def tuple4_fmt (a b c d : String) : String :=
  "(" ++ a ++ "," ++ b ++ "," ++ c ++ "," ++ d ++ ")"

/-- The format string of tuples! at arity 5 (line 577). -/
def tuple5_fmt (a b c d e : String) : String :=
  "(" ++ a ++ "," ++ b ++ "," ++ c ++ "," ++ d ++ "," ++ e ++ ")"

/-- The format string of tuples! at arity 6 (line 578). -/
def tuple6_fmt (a b c d e f : String) : String :=
  "(" ++ a ++ "," ++ b ++ "," ++ c ++ "," ++ d ++ "," ++ e ++ "," ++ f ++ ")"

/-- The format string of tuples! at arity 7 (line 579). -/
def tuple7_fmt (a b c d e f g : String) : String :=
  "(" ++ a ++ "," ++ b ++ "," ++ c ++ "," ++ d ++ "," ++ e ++ "," ++ f ++ ","
    ++ g ++ ")"

/-- The format string of tuples! at arity 8 (line 580). -/
def tuple8_fmt (a b c d e f g h : String) : String :=
  "(" ++ a ++ "," ++ b ++ "," ++ c ++ "," ++ d ++ "," ++ e ++ "," ++ f ++ ","
    ++ g ++ "," ++ h ++ ")"

/-- The format string of tuples! at arity 9 (line 581). -/
def tuple9_fmt (a b c d e f g h i : String) : String :=
  "(" ++ a ++ "," ++ b ++ "," ++ c ++ "," ++ d ++ "," ++ e ++ "," ++ f ++ ","
    ++ g ++ "," ++ h ++ "," ++ i ++ ")"

/-- The format string of tuples! at arity 10 (line 582). -/
def tuple10_fmt (a b c d e f g h i j : String) : String :=
  "(" ++ a ++ "," ++ b ++ "," ++ c ++ "," ++ d ++ "," ++ e ++ "," ++ f ++ ","
    ++ g ++ "," ++ h ++ "," ++ i ++ "," ++ j ++ ")"

/-- The format string of tuples! at arity 11 (line 583). -/
def tuple11_fmt (a b c d e f g h i j k : String) : String :=
  "(" ++ a ++ "," ++ b ++ "," ++ c ++ "," ++ d ++ "," ++ e ++ "," ++ f ++ ","
    ++ g ++ "," ++ h ++ "," ++ i ++ "," ++ j ++ "," ++ k ++ ")"

/-- The format string of tuples! at arity 12 (line 584). -/
def tuple12_fmt (a b c d e f g h i j k l : String) : String :=
  "(" ++ a ++ "," ++ b ++ "," ++ c ++ "," ++ d ++ "," ++ e ++ "," ++ f ++ ","
    ++ g ++ "," ++ h ++ "," ++ i ++ "," ++ j ++ "," ++ k ++ "," ++ l ++ ")"

/-- The format string of tuples! at arity 13 (line 585). -/
def tuple13_fmt (a b c d e f g h i j k l m : String) : String :=
  "(" ++ a ++ "," ++ b ++ "," ++ c ++ "," ++ d ++ "," ++ e ++ "," ++ f ++ ","
    ++ g ++ "," ++ h ++ "," ++ i ++ "," ++ j ++ "," ++ k ++ "," ++ l ++ ","
    ++ m ++ ")"

/-- The format string of tuples! at arity 14 (line 586). -/
def tuple14_fmt (a b c d e f g h i j k l m n : String) : String :=
  "(" ++ a ++ "," ++ b ++ "," ++ c ++ "," ++ d ++ "," ++ e ++ "," ++ f ++ ","
    ++ g ++ "," ++ h ++ "," ++ i ++ "," ++ j ++ "," ++ k ++ "," ++ l ++ ","
    ++ m ++ "," ++ n ++ ")"

/-- The format string of tuples! at arity 15 (line 587). -/
def tuple15_fmt (a b c d e f g h i j k l m n o : String) : String :=
  "(" ++ a ++ "," ++ b ++ "," ++ c ++ "," ++ d ++ "," ++ e ++ "," ++ f ++ ","
    ++ g ++ "," ++ h ++ "," ++ i ++ "," ++ j ++ "," ++ k ++ "," ++ l ++ ","
    ++ m ++ "," ++ n ++ "," ++ o ++ ")"

/-- The format string of tuples! at arity 16 (line 588). -/
def tuple16_fmt (a b c d e f g h i j k l m n o p : String) : String :=
  "(" ++ a ++ "," ++ b ++ "," ++ c ++ "," ++ d ++ "," ++ e ++ "," ++ f ++ ","
    ++ g ++ "," ++ h ++ "," ++ i ++ "," ++ j ++ "," ++ k ++ "," ++ l ++ ","
    ++ m ++ "," ++ n ++ "," ++ o ++ "," ++ p ++ ")"

/-- The tuples! implementation at arity 2 (line 574): const_type applies
the format string to the component const_types, const_val to the
components' const_vals in declared order. -/
def tuple2Impl (ca : CompileConst α) (cb : CompileConst β) : CompileConst (α × β) :=
  { const_type := tuple2_fmt ca.const_type cb.const_type
  , const_val := fun self => tuple2_fmt (ca.const_val self.1) (cb.const_val self.2) }

/-- Comma-separated join with no trailing comma, written by direct
recursion; the specification's reading of "comma-joined, no trailing
comma", to be compared with the source's `.join(",")`. -/
def commaJoin : List String → String
  | [] => ""
  | [s] => s
  | s :: rest => s ++ "," ++ commaJoin rest

/-- The pieces a separator-join appends after its first element: one
separator and one element per remaining entry. -/
def sepTail (sep : String) : List String → String
  | [] => ""
  | s :: rest => sep ++ s ++ sepTail sep rest

/-- One quoted character followed by a comma per list entry, the
specification's reading of the strings! const_array_val element text. -/
def charList : List Char → String
  | [] => ""
  | c :: rest => "'" ++ String.singleton c ++ "'," ++ charList rest

/-- Whether a character sequence contains no double quote outside a
backslash escape: the body of a Rust string literal keeps its closing
delimiter intact exactly when this holds. -/
def unescapedQuoteFree : List Char → Bool
  | [] => true
  | c :: rest =>
    if c = '\\' then
      match rest with
      | [] => false
      | _ :: rest2 => unescapedQuoteFree rest2
    else (c != '"') && unescapedQuoteFree rest

/-- Whether a rendered literal's double-quote delimiters are intact: it
starts and ends with a double quote, and its interior contains no
unescaped double quote that would terminate the literal early. -/
def delimitersIntact (lit : String) : Bool :=
  decide (2 ≤ lit.data.length) && (lit.data.head? == some '"')
    && (lit.data.getLast? == some '"')
    && unescapedQuoteFree lit.data.tail.dropLast

/-- Modelled from the spec: the escapes the target language (Rust)
resolves inside a string literal, restricted to the self-representing
ones the round-trip claim can meet; anything else is rejected rather
than guessed. Missing from src/: the target-language compiler the
round-trip property quantifies over. -/
def resolveEscape (c : Char) : Option Char :=
  if c = '"' then some c else if c = '\\' then some c else none

/-- Modelled from the spec: reading the body of a target-language string
literal after its opening double quote. Returns the decoded content and
the text remaining after the closing double quote, or none when the
literal never closes or holds an unsupported escape. -/
def readStringBody : List Char → Option (List Char × List Char)
  | [] => none
  | c :: rest =>
    if c = '"' then some ([], rest)
    else if c = '\\' then
      match rest with
      | [] => none
      | e :: rest2 =>
        (resolveEscape e).bind fun ec =>
          (readStringBody rest2).map fun p => (ec :: p.1, p.2)
    else (readStringBody rest).map fun p => (c :: p.1, p.2)

/-- Modelled from the spec: the character-level reading of a string
literal expression. The text must open with a double quote, and nothing
may remain after the closing delimiter; the result is the decoded
content. -/
def parseStringLitChars : List Char → Option (List Char)
  | '"' :: rest =>
    match readStringBody rest with
    | some (body, []) => some body
    | _ => none
  | _ => none

/-- Modelled from the spec: what the target language compiles a string
literal expression to. -/
def parseRustStringLit (lit : String) : Option String :=
  (parseStringLitChars lit.data).map String.mk

/-- Modelled from the spec: what the target language compiles a boolean
literal expression to. -/
def parseRustBoolLit (lit : String) : Option Bool :=
  if lit = "true" then some true
  else if lit = "false" then some false
  else none

/-- Modelled from the spec: one decimal digit's value. -/
def decDigit (c : Char) : Option Nat :=
  if '0' ≤ c ∧ c ≤ '9' then some (c.toNat - '0'.toNat) else none

/-- Modelled from the spec: the value of a most-significant-first run of
decimal digits, rejecting any non-digit. -/
def decValueCore (acc : Nat) : List Char → Option Nat
  | [] => some acc
  | c :: rest => (decDigit c).bind fun d => decValueCore (acc * 10 + d) rest

/-- Modelled from the spec: what the target language compiles a
suffixed u8 literal such as "255u8" to: at least one decimal digit
directly followed by the type keyword, in range for the type. -/
def parseRustU8Lit (lit : String) : Option u8 :=
  match lit.data.reverse with
  | '8' :: 'u' :: d :: rev =>
    (decValueCore 0 ((d :: rev).reverse)).bind fun n =>
      if n ≤ 255 then some (u8.mk n) else none
  | _ => none

/-- Folding string concatenation from any accumulator splits off the
accumulator. -/
theorem foldl_append_shift (l : List String) :
    ∀ a : String, List.foldl (fun r s => r ++ s) a l
      = a ++ List.foldl (fun r s => r ++ s) "" l := by
  induction l with
  | nil =>
    intro a
    simp [String.append_empty]
  | cons x xs ih =>
    intro a
    simp only [List.foldl_cons]
    rw [ih (a ++ x), ih ("" ++ x), String.empty_append, String.append_assoc]

/-- String.join splits off its head. -/
theorem join_cons (s : String) (l : List String) :
    String.join (s :: l) = s ++ String.join l := by
  simp only [String.join, List.foldl_cons]
  rw [foldl_append_shift, String.empty_append]

/-- String.intercalate.go accumulates the first element and then one
separator-element pair per remaining entry. -/
theorem intercalate_go_eq (sep : String) :
    ∀ (ss : List String) (a : String),
      String.intercalate.go a sep ss = a ++ sepTail sep ss := by
  intro ss
  induction ss with
  | nil =>
    intro a
    simp [String.intercalate.go, sepTail, String.append_empty]
  | cons x xs ih =>
    intro a
    simp [String.intercalate.go, sepTail, ih, String.append_assoc]

/-- commaJoin also accumulates the head and then separator-element
pairs. -/
theorem commaJoin_cons_eq (xs : List String) :
    ∀ x : String, commaJoin (x :: xs) = x ++ sepTail "," xs := by
  induction xs with
  | nil =>
    intro x
    simp [commaJoin, sepTail, String.append_empty]
  | cons y ys ih =>
    intro x
    show x ++ "," ++ commaJoin (y :: ys) = x ++ sepTail "," (y :: ys)
    rw [ih y]
    simp [sepTail, String.append_assoc]

/-- The source's `.join(",")`, translated as String.intercalate ",", is
the comma-separated join with no trailing comma. -/
theorem intercalate_comma_eq_commaJoin :
    ∀ ss : List String, String.intercalate "," ss = commaJoin ss := by
  intro ss
  match ss with
  | [] => rfl
  | x :: xs =>
    show String.intercalate.go x "," xs = commaJoin (x :: xs)
    rw [intercalate_go_eq, commaJoin_cons_eq]

/-- The strings! const_array_val element text is charList: one quoted
character plus comma per entry. -/
theorem join_quoted_eq_charList :
    ∀ l : List Char,
      String.join (l.map (fun c => "'" ++ String.singleton c ++ "',")) = charList l := by
  intro l
  induction l with
  | nil => rfl
  | cons c cs ih =>
    simp only [List.map_cons, charList]
    rw [join_cons, ih, String.append_assoc, String.append_assoc]

/-- charList emits the final element's comma directly before whatever
follows: rendering a list that ends in c ends in that quoted c and a
comma. -/
theorem charList_concat (c : Char) :
    ∀ l : List Char,
      charList (l ++ [c]) = charList l ++ ("'" ++ String.singleton c ++ "',") := by
  intro l
  induction l with
  | nil =>
    simp [charList, String.append_empty, String.empty_append, String.append_assoc]
  | cons d ds ih =>
    simp only [List.cons_append, charList, List.append_eq]
    rw [ih]
    simp [String.append_assoc]

/-- A character list without quotes and backslashes is unescaped-quote
free. -/
theorem unescapedQuoteFree_of_clean :
    ∀ l : List Char, (∀ c ∈ l, c ≠ '"' ∧ c ≠ '\\') →
      unescapedQuoteFree l = true := by
  intro l
  induction l with
  | nil => intro _; rfl
  | cons c cs ih =>
    intro h
    have hc := h c (List.mem_cons_self c cs)
    have hcs : ∀ x ∈ cs, x ≠ '"' ∧ x ≠ '\\' := fun x hx => h x (List.mem_cons_of_mem c hx)
    rw [unescapedQuoteFree.eq_def]
    simp only []
    rw [if_neg hc.2]
    simp [bne_iff_ne, hc.1, ih hcs]

/-- Reading a clean literal body consumes it up to the closing quote and
leaves nothing behind. -/
theorem readStringBody_clean :
    ∀ l : List Char, (∀ c ∈ l, c ≠ '"' ∧ c ≠ '\\') →
      readStringBody (l ++ [ '"' ]) = some (l, []) := by
  intro l
  induction l with
  | nil => intro _; rfl
  | cons c cs ih =>
    intro h
    have hc := h c (List.mem_cons_self c cs)
    have hcs : ∀ x ∈ cs, x ≠ '"' ∧ x ≠ '\\' := fun x hx => h x (List.mem_cons_of_mem c hx)
    simp only [List.cons_append]
    rw [readStringBody.eq_def]
    simp only []
    rw [if_neg hc.1, if_neg hc.2, ih hcs]
    rfl

/-- Reading a quoted clean body succeeds and recovers the body. -/
theorem parseStringLitChars_quoted (l : List Char)
    (h : ∀ c ∈ l, c ≠ '"' ∧ c ≠ '\\') :
    parseStringLitChars ('"' :: (l ++ [ '"' ])) = some l := by
  rw [parseStringLitChars.eq_def]
  simp only []
  rw [readStringBody_clean l h]

/-- The character data of a double-quoted string. -/
theorem quoted_data (s : String) :
    ( "\"" ++ s ++ "\"" ).data = '"' :: (s.data ++ [ '"' ]) := by
  rw [String.data_append, String.data_append]
  show [ '"' ] ++ s.data ++ [ '"' ] = '"' :: (s.data ++ [ '"' ])
  simp

/-- C2: declaration returns exactly the concatenation of attrs, a space
when attrs is non-empty, vis, a space when vis is non-empty, the
declaration type, a space, the name, ": ", const_type, " = ", const_val
and ";"; const_declaration and static_declaration are declaration with
the declaration type rendered "const" and "static" respectively. -/
theorem declaration_assembles (α : Type) (c : CompileConst α) (x : α)
    (attrs vis name : String) (dt : DeclarationType) :
    c.declaration x attrs vis dt name
      = attrs ++ (if attrs = "" then "" else " ") ++ vis
        ++ (if vis = "" then "" else " ") ++ dt.display ++ " " ++ name ++ ": "
        ++ c.const_type ++ " = " ++ c.const_val x ++ ";"
    ∧ c.const_declaration x attrs vis name
        = c.declaration x attrs vis DeclarationType.const name
    ∧ c.static_declaration x attrs vis name
        = c.declaration x attrs vis DeclarationType.static name
    ∧ DeclarationType.const.display = "const"
    ∧ DeclarationType.static.display = "static" := by
  refine ⟨?_, rfl, rfl, rfl, rfl⟩
  by_cases ha : attrs = "" <;> by_cases hv : vis = "" <;>
    simp [CompileConst.declaration, String.isEmpty_iff, ha, hv]

/-- C5: the slices! implementation (covering Vec<T> and &[T]) renders
const_type as "&'static [" plus the element type-name plus "]" and
const_val as "&[", the element literals in order joined by commas with
no trailing comma, then "]"; the empty sequence renders "&[]", and the
spec's u8 example renders exactly as stated. -/
theorem slices_render :
    (∀ (α : Type) (c : CompileConst α),
      (slicesImpl c).const_type = "&'static [" ++ c.const_type ++ "]"
      ∧ (∀ xs : List α, (slicesImpl c).const_val xs
          = "&[" ++ commaJoin (xs.map c.const_val) ++ "]")
      ∧ (slicesImpl c).const_val ([] : List α) = "&[]")
    ∧ (slicesImpl u8.impl).const_val
        [u8.mk 1, u8.mk 2, u8.mk 3, u8.mk 4, u8.mk 5, u8.mk 10, u8.mk 4]
        = "&[1u8,2u8,3u8,4u8,5u8,10u8,4u8]"
    ∧ (slicesImpl u8.impl).const_type = "&'static [u8]" := by
  refine ⟨?_, by decide, by decide⟩
  intro α c
  refine ⟨rfl, ?_, rfl⟩
  intro xs
  show "&[" ++ String.intercalate "," (xs.map c.const_val) ++ "]" = _
  rw [intercalate_comma_eq_commaJoin]

/-- C8: every numeric kind renders const_type as its fixed keyword and
const_val as the value's display text directly followed by that keyword
as a suffix; in particular the u8 value 255 renders "255u8". -/
theorem numerics_render :
    (u8.impl.const_type = "u8"
      ∧ ∀ x : u8, u8.impl.const_val x = toString x.val ++ "u8")
    ∧ (u16.impl.const_type = "u16"
      ∧ ∀ x : u16, u16.impl.const_val x = toString x.val ++ "u16")
    ∧ (u32.impl.const_type = "u32"
      ∧ ∀ x : u32, u32.impl.const_val x = toString x.val ++ "u32")
    ∧ (u64.impl.const_type = "u64"
      ∧ ∀ x : u64, u64.impl.const_val x = toString x.val ++ "u64")
    ∧ (u128.impl.const_type = "u128"
      ∧ ∀ x : u128, u128.impl.const_val x = toString x.val ++ "u128")
    ∧ (usize.impl.const_type = "usize"
      ∧ ∀ x : usize, usize.impl.const_val x = toString x.val ++ "usize")
    ∧ (i8.impl.const_type = "i8"
      ∧ ∀ x : i8, i8.impl.const_val x = toString x.val ++ "i8")
    ∧ (i16.impl.const_type = "i16"
      ∧ ∀ x : i16, i16.impl.const_val x = toString x.val ++ "i16")
    ∧ (i32.impl.const_type = "i32"
      ∧ ∀ x : i32, i32.impl.const_val x = toString x.val ++ "i32")
    ∧ (i64.impl.const_type = "i64"
      ∧ ∀ x : i64, i64.impl.const_val x = toString x.val ++ "i64")
    ∧ (i128.impl.const_type = "i128"
      ∧ ∀ x : i128, i128.impl.const_val x = toString x.val ++ "i128")
    ∧ (isize.impl.const_type = "isize"
      ∧ ∀ x : isize, isize.impl.const_val x = toString x.val ++ "isize")
    ∧ (f32.impl.const_type = "f32"
      ∧ ∀ x : f32, f32.impl.const_val x = x.display ++ "f32")
    ∧ (f64.impl.const_type = "f64"
      ∧ ∀ x : f64, f64.impl.const_val x = x.display ++ "f64")
    ∧ u8.impl.const_val (u8.mk 255) = "255u8" :=
  ⟨⟨rfl, fun _ => rfl⟩, ⟨rfl, fun _ => rfl⟩, ⟨rfl, fun _ => rfl⟩,
    ⟨rfl, fun _ => rfl⟩, ⟨rfl, fun _ => rfl⟩, ⟨rfl, fun _ => rfl⟩,
    ⟨rfl, fun _ => rfl⟩, ⟨rfl, fun _ => rfl⟩, ⟨rfl, fun _ => rfl⟩,
    ⟨rfl, fun _ => rfl⟩, ⟨rfl, fun _ => rfl⟩, ⟨rfl, fun _ => rfl⟩,
    ⟨rfl, fun _ => rfl⟩, ⟨rfl, fun _ => rfl⟩, by decide⟩

/-- C9: the three string kinds (String, &str, str) render identically:
const_type is "&'static str" for each, and const_val is the content
verbatim between double quotes with no escaping; the spec's example
string renders as stated. -/
theorem strings_render :
    RustString.impl.const_type = "&'static str"
    ∧ RustStrRef.impl.const_type = "&'static str"
    ∧ RustStr.impl.const_type = "&'static str"
    ∧ (∀ s : String,
        RustString.impl.const_val (RustString.mk s) = "\"" ++ s ++ "\"")
    ∧ (∀ s : String,
        RustStrRef.impl.const_val (RustStrRef.mk s) = "\"" ++ s ++ "\"")
    ∧ (∀ s : String,
        RustStr.impl.const_val (RustStr.mk s) = "\"" ++ s ++ "\"")
    ∧ (∀ s : String,
        RustString.impl.const_val (RustString.mk s)
          = RustStrRef.impl.const_val (RustStrRef.mk s))
    ∧ (∀ s : String,
        RustStrRef.impl.const_val (RustStrRef.mk s)
          = RustStr.impl.const_val (RustStr.mk s))
    ∧ RustStrRef.impl.const_val (RustStrRef.mk "I'm a string!")
        = "\"I'm a string!\"" :=
  ⟨rfl, rfl, rfl, fun _ => rfl, fun _ => rfl, fun _ => rfl,
    fun _ => rfl, fun _ => rfl, by decide⟩

/-- C10: the array-declaration path for strings renders const_array_type
as "[char; n]" with n the character count (not the byte length), and
const_array_val as a bracketed list where every character is wrapped in
single quotes and followed by a comma, the last element included, with
no character escaping; all three string kinds agree. -/
theorem string_array_renders :
    (∀ s : String, RustStrRef.arrayImpl.const_array_type (RustStrRef.mk s)
        = "[char; " ++ toString s.length ++ "]")
    ∧ (∀ s : String, RustStrRef.arrayImpl.const_array_val (RustStrRef.mk s)
        = "[" ++ charList s.data ++ "]")
    ∧ (∀ (l : List Char) (c : Char),
        charList (l ++ [c]) = charList l ++ ("'" ++ String.singleton c ++ "',"))
    ∧ (∀ s : String, RustString.arrayImpl.const_array_val (RustString.mk s)
        = RustStrRef.arrayImpl.const_array_val (RustStrRef.mk s))
    ∧ (∀ s : String, RustStr.arrayImpl.const_array_val (RustStr.mk s)
        = RustStrRef.arrayImpl.const_array_val (RustStrRef.mk s))
    ∧ RustStrRef.arrayImpl.const_array_type (RustStrRef.mk "Hello") = "[char; 5]"
    ∧ RustStrRef.arrayImpl.const_array_val (RustStrRef.mk "Hello")
        = "['H','e','l','l','o',]"
    ∧ RustStrRef.arrayImpl.const_array_type (RustStrRef.mk "é") = "[char; 1]"
    ∧ ( "é" : String).utf8ByteSize = 2
    ∧ RustStrRef.arrayImpl.const_array_val (RustStrRef.mk "'") = "[''',]" := by
  refine ⟨fun _ => rfl, ?_, fun l c => charList_concat c l, fun _ => rfl,
    fun _ => rfl, by decide, by decide, by decide, by decide, by decide⟩
  intro s
  show "[" ++ String.join (s.data.map (fun c => "'" ++ String.singleton c ++ "',")) ++ "]" = _
  rw [join_quoted_eq_charList]

/-- C7: the fixed-size array type-name is value-independent (it is
computed from the element renderer and the static length alone, so any
two instances of the same sized array type render identical type-names),
while the array-declaration path for variable-length sequences embeds
the runtime element count of the specific instance. -/
theorem type_name_length_invariance :
    (∀ (α : Type) (c : CompileConst α) (n : Nat),
      (arrayImpl c n).const_type = "[" ++ c.const_type ++ "; " ++ toString n ++ "]"
      ∧ ∀ a b : RustArray α n,
          typeNameFor (arrayImpl c n) a = typeNameFor (arrayImpl c n) b)
    ∧ (∀ (α : Type) (c : CompileConst α) (xs : List α),
        (slicesArrayImpl c).const_array_type xs
          = "[" ++ c.const_type ++ "; " ++ toString xs.length ++ "]")
    ∧ (slicesArrayImpl u8.impl).const_array_type [u8.mk 1] = "[u8; 1]"
    ∧ (slicesArrayImpl u8.impl).const_array_type [u8.mk 1, u8.mk 2] = "[u8; 2]"
    ∧ (slicesArrayImpl u8.impl).const_array_type [u8.mk 1]
        ≠ (slicesArrayImpl u8.impl).const_array_type [u8.mk 1, u8.mk 2] :=
  ⟨fun _ c n => ⟨rfl, fun _ _ => rfl⟩, fun _ _ _ => rfl,
    by decide, by decide, by decide⟩

/-- C6: the arrays! macro is instantiated at every length from 0 through
256, and at each such length [T; N] renders const_type as "[" plus the
element type-name plus "; " plus N plus "]" and const_val as the element
literals in order, comma-joined with no trailing comma, in square
brackets; the zero-length array renders "[]". -/
theorem arrays_render :
    (∀ n : Nat, n ∈ arrayLengths ↔ n ≤ 256)
    ∧ (∀ (α : Type) (c : CompileConst α) (n : Nat), n ∈ arrayLengths →
        (arrayImpl c n).const_type
          = "[" ++ c.const_type ++ "; " ++ toString n ++ "]"
        ∧ ∀ a : RustArray α n, (arrayImpl c n).const_val a
            = "[" ++ commaJoin (a.data.map c.const_val) ++ "]")
    ∧ (arrayImpl u8.impl 0).const_type = "[u8; 0]"
    ∧ (arrayImpl u8.impl 0).const_val (RustArray.mk [] rfl) = "[]"
    ∧ (arrayImpl u8.impl 9).const_type = "[u8; 9]"
    ∧ (arrayImpl u8.impl 9).const_val
        (RustArray.mk [u8.mk 1, u8.mk 2, u8.mk 3, u8.mk 4, u8.mk 5,
          u8.mk 6, u8.mk 7, u8.mk 8, u8.mk 9] rfl)
        = "[1u8,2u8,3u8,4u8,5u8,6u8,7u8,8u8,9u8]" := by
  refine ⟨?_, ?_, by decide, by decide, by decide, by decide⟩
  · intro n
    simp [arrayLengths, List.mem_range, Nat.lt_succ_iff]
  · intro α c n _
    refine ⟨rfl, ?_⟩
    intro a
    show "[" ++ String.intercalate "," (a.data.map c.const_val) ++ "]" = _
    rw [intercalate_comma_eq_commaJoin]

/-- C4 counterexample: arity 1 lies in the range 0 through 16, yet the
source instantiates no tuple implementation at arity 1 (the tuples!
invocations cover the nullary tuple and arities 2 through 16 only). -/
theorem tuple_arity_one_missing : 1 ≤ 16 ∧ (1 : Nat) ∉ tupleArities := by
  decide

/-- C4 amended: the tuples! macro is instantiated exactly at arity 0 and
at every arity from 2 through 16, and each instantiation renders both
const_type and const_val as the parenthesized comma-joined list of the
component renderings in declared order. -/
theorem tuples_render :
    (∀ n : Nat, n ∈ tupleArities ↔ n = 0 ∨ (2 ≤ n ∧ n ≤ 16))
    ∧ tuple0_fmt = "(" ++ commaJoin [] ++ ")"
    ∧ (∀ a b : String, tuple2_fmt a b = "(" ++ commaJoin [a, b] ++ ")")
    ∧ (∀ a b c : String, tuple3_fmt a b c = "(" ++ commaJoin [a, b, c] ++ ")")
    ∧ (∀ a b c d : String,
        tuple4_fmt a b c d = "(" ++ commaJoin [a, b, c, d] ++ ")")
    ∧ (∀ a b c d e : String,
        tuple5_fmt a b c d e = "(" ++ commaJoin [a, b, c, d, e] ++ ")")
    ∧ (∀ a b c d e f : String,
        tuple6_fmt a b c d e f = "(" ++ commaJoin [a, b, c, d, e, f] ++ ")")
    ∧ (∀ a b c d e f g : String,
        tuple7_fmt a b c d e f g = "(" ++ commaJoin [a, b, c, d, e, f, g] ++ ")")
    ∧ (∀ a b c d e f g h : String,
        tuple8_fmt a b c d e f g h
          = "(" ++ commaJoin [a, b, c, d, e, f, g, h] ++ ")")
    ∧ (∀ a b c d e f g h i : String,
        tuple9_fmt a b c d e f g h i
          = "(" ++ commaJoin [a, b, c, d, e, f, g, h, i] ++ ")")
    ∧ (∀ a b c d e f g h i j : String,
        tuple10_fmt a b c d e f g h i j
          = "(" ++ commaJoin [a, b, c, d, e, f, g, h, i, j] ++ ")")
    ∧ (∀ a b c d e f g h i j k : String,
        tuple11_fmt a b c d e f g h i j k
          = "(" ++ commaJoin [a, b, c, d, e, f, g, h, i, j, k] ++ ")")
    ∧ (∀ a b c d e f g h i j k l : String,
        tuple12_fmt a b c d e f g h i j k l
          = "(" ++ commaJoin [a, b, c, d, e, f, g, h, i, j, k, l] ++ ")")
    ∧ (∀ a b c d e f g h i j k l m : String,
        tuple13_fmt a b c d e f g h i j k l m
          = "(" ++ commaJoin [a, b, c, d, e, f, g, h, i, j, k, l, m] ++ ")")
    ∧ (∀ a b c d e f g h i j k l m n : String,
        tuple14_fmt a b c d e f g h i j k l m n
          = "(" ++ commaJoin [a, b, c, d, e, f, g, h, i, j, k, l, m, n] ++ ")")
    ∧ (∀ a b c d e f g h i j k l m n o : String,
        tuple15_fmt a b c d e f g h i j k l m n o
          = "(" ++ commaJoin [a, b, c, d, e, f, g, h, i, j, k, l, m, n, o] ++ ")")
    ∧ (∀ a b c d e f g h i j k l m n o p : String,
        tuple16_fmt a b c d e f g h i j k l m n o p
          = "(" ++ commaJoin [a, b, c, d, e, f, g, h, i, j, k, l, m, n, o, p] ++ ")")
    ∧ (∀ (α β : Type) (ca : CompileConst α) (cb : CompileConst β),
        (tuple2Impl ca cb).const_type
          = "(" ++ commaJoin [ca.const_type, cb.const_type] ++ ")"
        ∧ ∀ p : α × β, (tuple2Impl ca cb).const_val p
            = "(" ++ commaJoin [ca.const_val p.1, cb.const_val p.2] ++ ")") := by
  refine ⟨?_, rfl, ?_, ?_, ?_, ?_, ?_, ?_, ?_, ?_, ?_, ?_, ?_, ?_, ?_, ?_, ?_, ?_⟩
  · intro n
    simp only [tupleArities, List.mem_cons, List.not_mem_nil, or_false]
    omega
  · intros; simp [tuple2_fmt, commaJoin, String.append_assoc]
  · intros; simp [tuple3_fmt, commaJoin, String.append_assoc]
  · intros; simp [tuple4_fmt, commaJoin, String.append_assoc]
  · intros; simp [tuple5_fmt, commaJoin, String.append_assoc]
  · intros; simp [tuple6_fmt, commaJoin, String.append_assoc]
  · intros; simp [tuple7_fmt, commaJoin, String.append_assoc]
  · intros; simp [tuple8_fmt, commaJoin, String.append_assoc]
  · intros; simp [tuple9_fmt, commaJoin, String.append_assoc]
  · intros; simp [tuple10_fmt, commaJoin, String.append_assoc]
  · intros; simp [tuple11_fmt, commaJoin, String.append_assoc]
  · intros; simp [tuple12_fmt, commaJoin, String.append_assoc]
  · intros; simp [tuple13_fmt, commaJoin, String.append_assoc]
  · intros; simp [tuple14_fmt, commaJoin, String.append_assoc]
  · intros; simp [tuple15_fmt, commaJoin, String.append_assoc]
  · intros; simp [tuple16_fmt, commaJoin, String.append_assoc]
  · intro α β ca cb
    constructor
    · simp [tuple2Impl, tuple2_fmt, commaJoin, String.append_assoc]
    · intro p
      simp [tuple2Impl, tuple2_fmt, commaJoin, String.append_assoc]

/-- C3 counterexample: the string value consisting of one double-quote
character renders as three consecutive double quotes; no escaping is
inserted and the literal's delimiters are corrupted, so const_val does
not escape quote characters occurring in the value. -/
theorem escaping_cex :
    RustStrRef.impl.const_val (RustStrRef.mk "\"") = "\"\"\""
    ∧ delimitersIntact (RustStrRef.impl.const_val (RustStrRef.mk "\"")) = false := by
  decide

/-- C3 amended: const_val applies no escaping at all — string and char
content is inserted verbatim between the delimiters — so the emitted
literal's delimiters stay intact only when the value contains no quote
and no backslash characters; a quote in the value corrupts them. -/
theorem escaping_amended :
    (∀ s : String, RustStrRef.impl.const_val (RustStrRef.mk s) = "\"" ++ s ++ "\"")
    ∧ (∀ c : Char, RustChar.impl.const_val (RustChar.mk c)
        = "'" ++ String.singleton c ++ "'")
    ∧ (∀ s : String, (∀ c ∈ s.data, c ≠ '"' ∧ c ≠ '\\') →
        delimitersIntact (RustStrRef.impl.const_val (RustStrRef.mk s)) = true) := by
  refine ⟨fun _ => rfl, fun _ => rfl, ?_⟩
  intro s h
  show delimitersIntact ( "\"" ++ s ++ "\"" ) = true
  unfold delimitersIntact
  rw [quoted_data]
  have h1 : ('"' :: (s.data ++ [ '"' ])).tail.dropLast = s.data := by
    simp [List.dropLast_concat]
  have h2 : ('"' :: (s.data ++ [ '"' ])).getLast? = some '"' := by
    rw [← List.cons_append]
    exact List.getLast?_concat _
  rw [h1, h2, unescapedQuoteFree_of_clean s.data h]
  simp [List.length_append]

/-- C1 counterexample: the string value consisting of one double-quote
character renders as the three-quote literal, which the target language
does not compile back to the original value: the literal closes after
zero characters and a stray quote remains, so no constant equal to the
source value results. -/
theorem round_trip_cex :
    RustStrRef.impl.const_val (RustStrRef.mk "\"") = "\"\"\""
    ∧ parseRustStringLit (RustStrRef.impl.const_val (RustStrRef.mk "\"")) = none
    ∧ parseRustStringLit (RustStrRef.impl.const_val (RustStrRef.mk "\""))
        ≠ some "\"" := by
  refine ⟨by decide, by decide, by decide⟩

/-- C1 amended: under a target-language literal reader modelled from the
spec, the round trip holds for string values containing no double-quote
and no backslash characters, for booleans, and for the spec's u8
example; it does not hold for every supported value, since a string
containing a double quote fails (no escaping is applied). -/
theorem round_trip_amended :
    (∀ s : String, (∀ c ∈ s.data, c ≠ '"' ∧ c ≠ '\\') →
        parseRustStringLit (RustStrRef.impl.const_val (RustStrRef.mk s)) = some s)
    ∧ (∀ b : Bool, parseRustBoolLit (boolImpl.const_val b) = some b)
    ∧ parseRustU8Lit (u8.impl.const_val (u8.mk 255)) = some (u8.mk 255)
    ∧ parseRustStringLit (RustStrRef.impl.const_val (RustStrRef.mk "Hello there."))
        = some "Hello there." := by
  refine ⟨?_, ?_, by decide, by decide⟩
  · intro s h
    obtain ⟨l⟩ := s
    show parseRustStringLit ( "\"" ++ String.mk l ++ "\"" ) = some (String.mk l)
    unfold parseRustStringLit
    rw [quoted_data, parseStringLitChars_quoted l h]
    rfl
  · intro b
    cases b <;> rfl

end ConstGen
